import Mathlib

/-!
Verification of the dTest HTTP client (src/main.py).

The script is a minimal synchronous HTTP client: it authenticates against a
remote task API, submits a task, polls the task status until the server
reports completion, then fetches and deserializes the results.

Embedding conventions:
* JSON values (what the `requests` library's `.json()` and Python's `json.loads`
  produce) are the inductive `Json`.
* The network (the `requests` library together with the remote server) is a
  deterministic environment `Env`: `respond t req` is the decoded JSON body of
  the response to the `t`-th HTTP request of the run when that request is
  `req`.  Python's `json.loads` is the environment field `loads`.
* Each client method is a pure Lean function taking the client state, the
  environment and the current request counter, and returning its value, the
  new counter, and the HTTP request(s) it issued (the trace).
* Python exceptions (KeyError, TypeError, json decode errors) are `Except
  String` / `Outcome.exn`.  The unbounded `while True` polling loop is given
  explicit fuel; running out of fuel is `Outcome.noFuel`, which models
  nontermination: the loop diverges iff it returns `noFuel` for every fuel.
* `print`, `sys.stdout.flush` and `time.sleep` have no observable effect on
  the state or the requests issued and are not modelled.
-/

/-- A JSON value, as produced by `response.json()` / `json.loads`.
Numbers are modelled as integers (the program never manipulates numeric
response fields beyond interpolating them into strings). -/
inductive Json where
  | null : Json
  | bool (b : Bool) : Json
  | num (n : Int) : Json
  | str (s : String) : Json
  | arr (xs : List Json) : Json
  | obj (kvs : List (String × Json)) : Json
deriving Repr

/-- A single quote character, used by Python repr of strings. -/
def pyQuote : String := String.singleton (Char.ofNat 39)

mutual

/-- Python `repr` of a decoded JSON value (used for elements nested inside
containers when a value is interpolated into an f-string). -/
def Json.pyRepr : Json → String
  | .null => "None"
  | .bool true => "True"
  | .bool false => "False"
  | .num n => toString n
  | .str s => pyQuote ++ s ++ pyQuote
  | .arr xs => "[" ++ pyReprList xs ++ "]"
  | .obj kvs => "\x7b" ++ pyReprObj kvs ++ "\x7d"

/-- Comma-separated Python reprs of a list of values. -/
def pyReprList : List Json → String
  | [] => ""
  | [x] => x.pyRepr
  | x :: y :: xs => x.pyRepr ++ ", " ++ pyReprList (y :: xs)

/-- Comma-separated Python reprs of the key/value pairs of a dict. -/
def pyReprObj : List (String × Json) → String
  | [] => ""
  | [(k, v)] => pyQuote ++ k ++ pyQuote ++ ": " ++ v.pyRepr
  | (k, v) :: p :: kvs =>
      pyQuote ++ k ++ pyQuote ++ ": " ++ v.pyRepr ++ ", " ++ pyReprObj (p :: kvs)

end

/-- Python `str` of a decoded JSON value, as produced by f-string
interpolation: a string interpolates to itself, anything else to its repr. -/
def Json.pyStr : Json → String
  | .str s => s
  | j => j.pyRepr

/-- Python truthiness of a decoded JSON value (`if result['complete']:`). -/
def Json.truthy : Json → Bool
  | .null => false
  | .bool b => b
  | .num n => decide (n ≠ 0)
  | .str s => !s.isEmpty
  | .arr xs => !xs.isEmpty
  | .obj kvs => !kvs.isEmpty

/-- Python dict subscript `j[key]` on a decoded JSON value: a KeyError when
the key is absent, a TypeError when the value is not a dict.  (A decoded JSON
object never has duplicate keys, so first-match lookup is exact.) -/
def Json.getField : Json → String → Except String Json
  | .obj kvs, k =>
      match kvs.lookup k with
      | some v => .ok v
      | none => .error ("KeyError: " ++ k)
  | _, _ => .error "TypeError: value is not subscriptable by a string key"

/-- HTTP method of a request issued by the client. -/
inductive Method where
  | GET : Method
  | POST : Method
deriving Repr, DecidableEq

/-- An HTTP request as issued by the `requests` calls in src/main.py:
method, full URL, the Authorization header value when a headers dict is
passed, and the JSON body when one is passed. -/
structure Request where
  method : Method
  url : String
  auth : Option String
  body : Option Json
deriving Repr

/-- The external world: `respond t req` is the decoded JSON body of the
response the server gives to the `t`-th HTTP request of the run when that
request is `req`; `loads` is Python's `json.loads` on a string argument
(an `Except` error is a `json.JSONDecodeError`). -/
structure Env where
  respond : Nat → Request → Json
  loads : String → Except String Json

/-- The client state (src/main.py, `Client.__init__`): constructor fields in
source order, with both tokens initialized to Python `None`. -/
structure Client where
  host : String
  collaboration_id : Json
  username : String
  password : String
  api_path : String := "/api"
  access_token : Json := .null
  refresh_token : Json := .null
deriving Repr

namespace Client

/-- src/main.py `Client._baseURL`: `self.host + self.api_path`. -/
def baseURL (c : Client) : String := c.host ++ c.api_path

/-- The request issued by `Client.get(url)`: a GET to `_baseURL + url` with
header `Authorization: Bearer {self.access_token}` (f-string interpolation
of the stored token value). -/
def getRequest (c : Client) (url : String) : Request :=
  { method := .GET
    url := c.baseURL ++ url
    auth := some ("Bearer " ++ c.access_token.pyStr)
    body := none }

/-- src/main.py `Client.get`: issues the GET and returns the decoded JSON
body, together with the advanced request counter and the request issued. -/
def get (c : Client) (env : Env) (t : Nat) (url : String) :
    Json × Nat × Request :=
  (env.respond t (c.getRequest url), t + 1, c.getRequest url)

/-- The request issued by `Client.post(url, task)`: a POST to
`_baseURL + url` with the bearer header and `task` as JSON body. -/
def postRequest (c : Client) (url : String) (task : Json) : Request :=
  { method := .POST
    url := c.baseURL ++ url
    auth := some ("Bearer " ++ c.access_token.pyStr)
    body := some task }

/-- src/main.py `Client.post`: issues the POST and returns the decoded JSON
body, together with the advanced request counter and the request issued. -/
def post (c : Client) (env : Env) (t : Nat) (url : String) (task : Json) :
    Json × Nat × Request :=
  (env.respond t (c.postRequest url task), t + 1, c.postRequest url task)

/-- The request issued by `Client.authenticate`: a POST to
`{host}{api_path}/token/user` with body `{username, password}` and no
Authorization header. -/
def tokenRequest (c : Client) : Request :=
  { method := .POST
    url := c.host ++ c.api_path ++ "/token/user"
    auth := none
    body := some (.obj [("username", .str c.username),
                        ("password", .str c.password)]) }

/-- src/main.py `Client.authenticate`: posts the credentials, then stores
`r['access_token']` and `r['refresh_token']`.  A missing field raises
(KeyError); the assignments happen in source order, so on a missing
`refresh_token` the access token has already been stored. -/
def authenticate (c : Client) (env : Env) (t : Nat) :
    Except String Unit × Client × Nat × Request :=
  let r := env.respond t c.tokenRequest
  match r.getField "access_token" with
  | .error e => (.error e, c, t + 1, c.tokenRequest)
  | .ok av =>
      match r.getField "refresh_token" with
      | .error e => (.error e, { c with access_token := av }, t + 1,
                     c.tokenRequest)
      | .ok rv => (.ok (), { c with access_token := av, refresh_token := rv },
                   t + 1, c.tokenRequest)

/-- src/main.py `Client.create_task`: `self.post('/task', task)`. -/
def create_task (c : Client) (env : Env) (t : Nat) (task : Json) :
    Json × Nat × Request :=
  c.post env t "/task" task

end Client

/-- Outcome of a computation that may raise an uncaught Python exception or
run out of fuel (i.e. not terminate within the given number of loop
iterations). -/
inductive Outcome (α : Type) where
  | ok (a : α) : Outcome α
  | exn (e : String) : Outcome α
  | noFuel : Outcome α
deriving Repr

/-- The Python truthiness of `result['complete']` for the status response
returned at request counter `t` to the status GET for `path`. -/
def statusFlag (env : Env) (c : Client) (path : String) (t : Nat) :
    Except String Bool :=
  ((env.respond t (c.getRequest path)).getField "complete").map Json.truthy

/-- The `while True` polling loop of src/main.py `Client.wait_for_results`:
GET the status path; break when `result['complete']` is truthy, otherwise
sleep and repeat.  Returns the request counter after the break, together
with the status requests issued, with explicit fuel. -/
def pollLoop (env : Env) (c : Client) (path : String) :
    Nat → Nat → Outcome Nat × List Request
  | 0, _ => (.noFuel, [])
  | fuel + 1, t =>
      let (r, t1, req) := c.get env t path
      match r.getField "complete" with
      | .error e => (.exn e, [req])
      | .ok v =>
          if v.truthy then (.ok t1, [req])
          else
            let (out, reqs) := pollLoop env c path fuel t1
            (out, req :: reqs)

/-- Python `json.loads(x)`: parses a string argument, and raises a TypeError
on a non-string argument. -/
def loadsArg (env : Env) : Json → Except String Json
  | .str s => env.loads s
  | _ => .error "TypeError: the JSON object must be str"

/-- One step of the comprehension in src/main.py line 54:
`json.loads(r['result'])` for a single entry `r`. -/
def decodeEntry (env : Env) (r : Json) : Except String Json :=
  match r.getField "result" with
  | .error e => .error e
  | .ok rv => loadsArg env rv

/-- The comprehension `[json.loads(r['result']) for r in result['results']]`
over a list of entries, evaluated left to right; the first exception
propagates. -/
def parseResults (env : Env) : List Json → Except String (List Json)
  | [] => .ok []
  | r :: rest =>
      match decodeEntry env r with
      | .error e => .error e
      | .ok v =>
          match parseResults env rest with
          | .error e => .error e
          | .ok vs => .ok (v :: vs)

/-- Python iteration `for r in x` over a decoded JSON value: a list yields
its elements, a dict yields its keys, a string yields its one-character
substrings; other values raise a TypeError. -/
def Json.iterate : Json → Except String (List Json)
  | .arr xs => .ok xs
  | .obj kvs => .ok (kvs.map fun kv => .str kv.1)
  | .str s => .ok (s.toList.map fun ch => .str (String.singleton ch))
  | _ => .error "TypeError: value is not iterable"

/-- The status path `f'/task/{task_id}'` built by `wait_for_results`. -/
def taskPath (task_id : Json) : String := "/task/" ++ task_id.pyStr

/-- Lines 53-54 of src/main.py: after the loop breaks, GET the status path
with the `?include=results` query flag and run the deserializing
comprehension over `result['results']`. -/
def fetchResults (env : Env) (c : Client) (path : String) (t1 : Nat) :
    Outcome (List Json) :=
  let (r, _t2, _req2) := c.get env t1 (path ++ "?include=results")
  match r.getField "results" with
  | .error e => .exn e
  | .ok rs =>
      match rs.iterate with
      | .error e => .exn e
      | .ok entries =>
          match parseResults env entries with
          | .error e => .exn e
          | .ok vals => .ok vals

/-- src/main.py `Client.wait_for_results`: poll `/task/{task_id}` until the
completion flag is truthy, then GET `/task/{task_id}?include=results` once
and decode each entry of `result['results']`.  Returns the outcome together
with every request issued, in order. -/
def Client.wait_for_results (c : Client) (env : Env) (task_id : Json)
    (fuel : Nat) (t : Nat) : Outcome (List Json) × List Request :=
  let path := taskPath task_id
  match pollLoop env c path fuel t with
  | (.noFuel, reqs) => (.noFuel, reqs)
  | (.exn e, reqs) => (.exn e, reqs)
  | (.ok t1, reqs) =>
      (fetchResults env c path t1,
       reqs ++ [c.getRequest (path ++ "?include=results")])

/-- The task dict built in src/main.py `run` (lines 75-87). -/
def taskPayload (host api_path : String) (collaboration_id : Json) : Json :=
  .obj [("name", .str "RPC call from Python"),
        ("image", .str "docker-registry.distributedlearning.ai/dl_test"),
        ("collaboration_id", collaboration_id),
        ("input", .obj [("role", .str "master"),
                        ("host", .str host),
                        ("api_path", .str api_path),
                        ("collaboration_id", collaboration_id)]),
        ("database", .str ""),
        ("description", .str "")]

/-- The client constructed in src/main.py `run` (line 72):
`Client(host, collaboration_id, username, password, api_path)`. -/
def initClient (host api_path username password : String)
    (collaboration_id : Json) : Client :=
  { host := host, collaboration_id := collaboration_id,
    username := username, password := password, api_path := api_path }

/-- src/main.py `run`: construct the client, authenticate, submit the task,
and wait for its results.  Returns the outcome and the full ordered list of
HTTP requests issued by the run. -/
def run (env : Env) (host api_path username password : String)
    (collaboration_id : Json) (fuel : Nat) :
    Outcome (List Json) × List Request :=
  let c0 : Client := initClient host api_path username password
    collaboration_id
  match c0.authenticate env 0 with
  | (.error e, _, _, req) => (.exn e, [req])
  | (.ok _, c1, t1, req) =>
      let task := taskPayload host api_path collaboration_id
      let (resp, t2, req2) := c1.create_task env t1 task
      match resp.getField "id" with
      | .error e => (.exn e, [req, req2])
      | .ok idv =>
          let (out, reqs3) := c1.wait_for_results env idv fuel t2
          (out, req :: req2 :: reqs3)

/-- The number of parameters of `run`
(`host, api_path, username, password, collaboration_id`), all required
(none has a default). -/
def run_required_params : Nat := 5

/-- The arguments passed at the `__main__` call site (src/main.py line 94):
`run()` passes none. -/
def main_call_args : List Json := []

/-- Python call binding: binding `args` against `params` required positional
parameters raises a TypeError before the function body runs unless the
counts match. -/
def bindCall (params : Nat) (args : List Json) : Except String (List Json) :=
  if args.length = params then .ok args
  else .error "TypeError: run() missing required positional arguments"

/-! ### Concrete data used by witnesses -/

/-- A concrete server response carrying every field the client ever reads. -/
def respW : Json :=
  .obj [("access_token", .str "T"), ("refresh_token", .str "R"),
        ("complete", .bool true), ("id", .num 3),
        ("results", .arr [.obj [("result", .str "7")]])]

/-- A concrete environment: every response is `respW`; `loads` wraps the
string. -/
def envW : Env :=
  { respond := fun _ _ => respW, loads := fun s => .ok (.str s) }

/-- A concrete environment whose status responses are never complete. -/
def envFalseW : Env :=
  { respond := fun _ _ => .obj [("complete", .bool false)],
    loads := fun s => .ok (.str s) }

/-- A token response with refresh token `R1`. -/
def tokRespA : Json :=
  .obj [("access_token", .str "T"), ("refresh_token", .str "R1")]

/-- The same token response but with refresh token `R2`. -/
def tokRespB : Json :=
  .obj [("access_token", .str "T"), ("refresh_token", .str "R2")]

/-- Environment answering the token exchange with `tokRespA`, then always
`respW`. -/
def envA : Env :=
  { respond := fun t _ => match t with | 0 => tokRespA | _ + 1 => respW,
    loads := fun s => .ok (.str s) }

/-- Environment answering the token exchange with `tokRespB`, then always
`respW`. -/
def envB : Env :=
  { respond := fun t _ => match t with | 0 => tokRespB | _ + 1 => respW,
    loads := fun s => .ok (.str s) }

/-- A concrete client. -/
def cW : Client :=
  { host := "http://x", collaboration_id := .num 1, username := "u",
    password := "p", api_path := "/api" }

/-! ### Theorems -/

/-- C4: with `host="http://x"` and `api_path="/api"`, `get("/task/5")`
issues its request to exactly the URL `"http://x/api/task/5"`, the
concatenation `host ++ api_path ++ url`. -/
theorem get_targets_host_api_url (c : Client) (env : Env) (t : Nat)
    (hh : c.host = "http://x") (ha : c.api_path = "/api") :
    (c.get env t "/task/5").2.2.url = "http://x/api/task/5" ∧
    (c.get env t "/task/5").2.2.url = c.host ++ c.api_path ++ "/task/5" := by
  constructor
  · show c.baseURL ++ "/task/5" = _
    rw [Client.baseURL, hh, ha]
    rfl
  · show c.baseURL ++ "/task/5" = _
    rw [Client.baseURL, String.append_assoc]

/-- Witness for `get_targets_host_api_url` at the concrete client `cW`. -/
theorem get_targets_host_api_url_witness :
    (cW.get envW 0 "/task/5").2.2.url = "http://x/api/task/5" ∧
    (cW.get envW 0 "/task/5").2.2.url = cW.host ++ cW.api_path ++ "/task/5" :=
  get_targets_host_api_url cW envW 0 rfl rfl

/-- C9: the `__main__` block calls `run()` with zero arguments while `run`
has five required parameters, so binding the call raises a TypeError (before
the body of `run`, and hence any HTTP request, is reached). -/
theorem main_invocation_fails :
    bindCall run_required_params main_call_args =
      .error "TypeError: run() missing required positional arguments" ∧
    main_call_args.length = 0 ∧ run_required_params = 5 := by
  refine ⟨?_, rfl, rfl⟩
  rfl

/-- C10: `get` and `post` perform no authentication check: on a client whose
`access_token` is still `None`, the request is issued anyway and carries the
literal header value `Bearer None`. -/
theorem unauthenticated_requests_send_bearer_none (c : Client) (env : Env)
    (t : Nat) (url : String) (task : Json) (hc : c.access_token = .null) :
    c.get env t url = (env.respond t (c.getRequest url), t + 1,
      c.getRequest url) ∧
    (c.getRequest url).auth = some "Bearer None" ∧
    c.post env t url task = (env.respond t (c.postRequest url task), t + 1,
      c.postRequest url task) ∧
    (c.postRequest url task).auth = some "Bearer None" := by
  refine ⟨rfl, ?_, rfl, ?_⟩ <;>
    simp [Client.getRequest, Client.postRequest, hc, Json.pyStr, Json.pyRepr]

/-- Witness for `unauthenticated_requests_send_bearer_none` at the freshly
constructed client `cW`. -/
theorem unauthenticated_requests_send_bearer_none_witness :
    cW.get envW 0 "/task" = (envW.respond 0 (cW.getRequest "/task"), 1,
      cW.getRequest "/task") ∧
    (cW.getRequest "/task").auth = some "Bearer None" ∧
    cW.post envW 0 "/task" .null = (envW.respond 0
      (cW.postRequest "/task" .null), 1, cW.postRequest "/task" .null) ∧
    (cW.postRequest "/task" .null).auth = some "Bearer None" :=
  unauthenticated_requests_send_bearer_none cW envW 0 "/task" .null rfl

/-- C7: `authenticate` POSTs exactly `{username, password}` to
`{host}{api_path}/token/user` with no Authorization header, and on a
response carrying both token fields stores them into `access_token` and
`refresh_token`. -/
theorem authenticate_posts_credentials_and_stores_tokens (c : Client)
    (env : Env) (t : Nat) (av rv : Json)
    (hacc : (env.respond t c.tokenRequest).getField "access_token" = .ok av)
    (hrf : (env.respond t c.tokenRequest).getField "refresh_token" = .ok rv) :
    c.tokenRequest.method = .POST ∧
    c.tokenRequest.url = c.host ++ c.api_path ++ "/token/user" ∧
    c.tokenRequest.auth = none ∧
    c.tokenRequest.body = some (.obj [("username", .str c.username),
                                      ("password", .str c.password)]) ∧
    c.authenticate env t =
      (.ok (), { c with access_token := av, refresh_token := rv }, t + 1,
       c.tokenRequest) := by
  refine ⟨rfl, rfl, rfl, rfl, ?_⟩
  simp only [Client.authenticate]
  rw [hacc, hrf]

/-- Witness for `authenticate_posts_credentials_and_stores_tokens` on the
concrete environment `envW`. -/
theorem authenticate_posts_credentials_and_stores_tokens_witness :
    cW.tokenRequest.method = .POST ∧
    cW.tokenRequest.url = cW.host ++ cW.api_path ++ "/token/user" ∧
    cW.tokenRequest.auth = none ∧
    cW.tokenRequest.body = some (.obj [("username", .str cW.username),
                                       ("password", .str cW.password)]) ∧
    cW.authenticate envW 0 =
      (.ok (), { cW with access_token := Json.str "T", refresh_token := Json.str "R" }, 1, cW.tokenRequest) :=
  authenticate_posts_credentials_and_stores_tokens cW envW 0
    (.str "T") (.str "R") rfl rfl

/-- C2: after a successful `authenticate`, every subsequent `get` and `post`
on the resulting client sends the header
`Authorization: Bearer <access_token>` with the token taken from the
authentication response. -/
theorem requests_carry_token_of_last_auth (c c1 : Client) (env : Env)
    (t t1 : Nat) (rq : Request) (tok : Json)
    (hAuth : c.authenticate env t = (.ok (), c1, t1, rq))
    (htok : (env.respond t c.tokenRequest).getField "access_token" =
      .ok tok) :
    (∀ t2 u, (c1.get env t2 u).2.2.auth =
      some ("Bearer " ++ tok.pyStr)) ∧
    (∀ t2 u b, (c1.post env t2 u b).2.2.auth =
      some ("Bearer " ++ tok.pyStr)) := by
  simp only [Client.authenticate] at hAuth
  rw [htok] at hAuth
  cases hrf : (env.respond t c.tokenRequest).getField "refresh_token" with
  | error e =>
      rw [hrf] at hAuth
      simp at hAuth
  | ok rv =>
      rw [hrf] at hAuth
      simp only [Prod.mk.injEq] at hAuth
      obtain ⟨-, hc1, -, -⟩ := hAuth
      subst hc1
      exact ⟨fun t2 u => rfl, fun t2 u b => rfl⟩

/-- Witness for `requests_carry_token_of_last_auth`: after authenticating
against `envW`, a `get` carries `Bearer T`. -/
theorem requests_carry_token_of_last_auth_witness :
    (({ cW with access_token := Json.str "T", refresh_token := Json.str "R" } : Client).get envW 1 "/x").2.2.auth = some "Bearer T" :=
  (requests_carry_token_of_last_auth cW _ envW 0 1 cW.tokenRequest
    (Json.str "T") rfl rfl).1 1 "/x"

/-- Unfolding of `statusFlag` into the completion field of the status
response. -/
theorem statusFlag_ok_iff (env : Env) (c : Client) (path : String) (t : Nat)
    (b : Bool) :
    statusFlag env c path t = .ok b ↔
    ∃ v, (env.respond t (c.getRequest path)).getField "complete" = .ok v ∧
      v.truthy = b := by
  unfold statusFlag
  cases h : (env.respond t (c.getRequest path)).getField "complete" <;>
    simp [Except.map]

/-- If the completion flag is falsy for the first `n` status responses and
truthy for the `n`-th, the polling loop breaks after exactly `n + 1` status
GETs, all to the status path. -/
theorem pollLoop_break (env : Env) (c : Client) (path : String) :
    ∀ (n fuel t : Nat), n < fuel →
    (∀ k, k < n → statusFlag env c path (t + k) = .ok false) →
    statusFlag env c path (t + n) = .ok true →
    pollLoop env c path fuel t =
      (.ok (t + n + 1), List.replicate (n + 1) (c.getRequest path)) := by
  intro n
  induction n with
  | zero =>
      intro fuel t hlt hfalse htrue
      obtain ⟨f, rfl⟩ : ∃ f, fuel = f + 1 :=
        ⟨fuel - 1, by omega⟩
      obtain ⟨v, hv, htv⟩ := (statusFlag_ok_iff env c path t true).mp
        (by simpa using htrue)
      simp only [pollLoop, Client.get]
      rw [hv]
      simp [htv]
  | succ n ih =>
      intro fuel t hlt hfalse htrue
      obtain ⟨f, rfl⟩ : ∃ f, fuel = f + 1 := ⟨fuel - 1, by omega⟩
      obtain ⟨v, hv, htv⟩ := (statusFlag_ok_iff env c path t false).mp
        (by simpa using hfalse 0 (Nat.succ_pos n))
      simp only [pollLoop, Client.get]
      rw [hv]
      simp only [htv, if_false]
      rw [ih f (t + 1) (by omega)
        (fun k hk => by
          have := hfalse (k + 1) (by omega)
          simpa [Nat.add_assoc, Nat.add_comm 1 k] using this)
        (by
          have := htrue
          simpa [Nat.add_assoc, Nat.add_comm 1 n] using this)]
      simp [List.replicate_succ]
      omega

/-- If every status response is incomplete, the polling loop exhausts any
amount of fuel, issuing one status GET per iteration and nothing else. -/
theorem pollLoop_diverges (env : Env) (c : Client) (path : String)
    (h : ∀ u, statusFlag env c path u = .ok false) :
    ∀ fuel t, pollLoop env c path fuel t =
      (.noFuel, List.replicate fuel (c.getRequest path)) := by
  intro fuel
  induction fuel with
  | zero => intro t; rfl
  | succ f ih =>
      intro t
      obtain ⟨v, hv, htv⟩ := (statusFlag_ok_iff env c path t false).mp (h t)
      simp only [pollLoop, Client.get]
      rw [hv]
      simp only [htv, if_false]
      rw [ih (t + 1)]
      simp [List.replicate_succ]

/-- Unfolding of `wait_for_results` when the polling loop breaks. -/
theorem wait_eq_of_poll_ok (env : Env) (c : Client) (task_id : Json)
    (fuel t t1 : Nat) (reqs : List Request)
    (hp : pollLoop env c (taskPath task_id) fuel t = (.ok t1, reqs)) :
    c.wait_for_results env task_id fuel t =
      (fetchResults env c (taskPath task_id) t1,
       reqs ++ [c.getRequest (taskPath task_id ++ "?include=results")]) := by
  simp only [Client.wait_for_results]
  rw [hp]

/-- Unfolding of `wait_for_results` when the polling loop runs out of
fuel. -/
theorem wait_eq_of_poll_noFuel (env : Env) (c : Client) (task_id : Json)
    (fuel t : Nat) (reqs : List Request)
    (hp : pollLoop env c (taskPath task_id) fuel t = (.noFuel, reqs)) :
    c.wait_for_results env task_id fuel t = (.noFuel, reqs) := by
  simp only [Client.wait_for_results]
  rw [hp]

/-- When the polling loop breaks normally, the trace of `wait_for_results`
is the loop's status GETs followed by exactly one results GET, whatever the
results response contains. -/
theorem wait_trace_of_break (env : Env) (c : Client) (task_id : Json)
    (fuel t t1 : Nat) (reqs : List Request)
    (hp : pollLoop env c (taskPath task_id) fuel t = (.ok t1, reqs)) :
    (c.wait_for_results env task_id fuel t).2 =
      reqs ++ [c.getRequest (taskPath task_id ++ "?include=results")] := by
  rw [wait_eq_of_poll_ok env c task_id fuel t t1 reqs hp]

/-- C1: when the server reports the completion flag falsy `n` times and then
truthy, `wait_for_results` issues exactly `n + 1` status GETs to
`/task/{task_id}` followed by exactly one GET to
`/task/{task_id}?include=results`; in particular no request carrying the
results query flag precedes the truthy status response. -/
theorem wait_polls_until_complete_then_fetches (env : Env) (c : Client)
    (task_id : Json) (n fuel t : Nat) (hlt : n < fuel)
    (hfalse : ∀ k, k < n →
      statusFlag env c (taskPath task_id) (t + k) = .ok false)
    (htrue : statusFlag env c (taskPath task_id) (t + n) = .ok true) :
    (c.wait_for_results env task_id fuel t).2 =
      List.replicate (n + 1) (c.getRequest (taskPath task_id)) ++
      [c.getRequest (taskPath task_id ++ "?include=results")] :=
  wait_trace_of_break env c task_id fuel t (t + n + 1) _
    (pollLoop_break env c (taskPath task_id) n fuel t hlt hfalse htrue)

/-- Witness for `wait_polls_until_complete_then_fetches`: against `envW`
(always complete) the trace is one status GET then the results GET. -/
theorem wait_polls_until_complete_then_fetches_witness :
    (cW.wait_for_results envW (.num 3) 1 0).2 =
      List.replicate 1 (cW.getRequest (taskPath (.num 3))) ++
      [cW.getRequest (taskPath (.num 3) ++ "?include=results")] :=
  wait_polls_until_complete_then_fetches envW cW (.num 3) 0 1 0
    Nat.zero_lt_one (fun k hk => absurd hk (Nat.not_lt_zero k)) rfl

/-- C5: if the server's completion flag is falsy in every status response,
`wait_for_results` exhausts any amount of fuel: each of the `fuel`
iterations issues one more status GET, and the results fetch is never
issued. -/
theorem wait_diverges_when_never_complete (env : Env) (c : Client)
    (task_id : Json)
    (h : ∀ u, statusFlag env c (taskPath task_id) u = .ok false) :
    ∀ fuel t, c.wait_for_results env task_id fuel t =
      (.noFuel, List.replicate fuel (c.getRequest (taskPath task_id))) ∧
      c.getRequest (taskPath task_id ++ "?include=results") ∉
        (c.wait_for_results env task_id fuel t).2 := by
  intro fuel t
  have hw : c.wait_for_results env task_id fuel t =
      (.noFuel, List.replicate fuel (c.getRequest (taskPath task_id))) :=
    wait_eq_of_poll_noFuel env c task_id fuel t _
      (pollLoop_diverges env c (taskPath task_id) h fuel t)
  refine ⟨hw, ?_⟩
  rw [hw]
  intro hmem
  have heq := List.eq_of_mem_replicate hmem
  have hurl : (c.getRequest (taskPath task_id ++ "?include=results")).url =
      (c.getRequest (taskPath task_id)).url := congrArg Request.url heq
  simp only [Client.getRequest] at hurl
  have hlen := congrArg String.length hurl
  simp [String.length_append] at hlen
  exact absurd hlen (by decide)

/-- Witness for `wait_diverges_when_never_complete` at fuel 2: two status
GETs, no results fetch. -/
theorem wait_diverges_when_never_complete_witness :
    cW.wait_for_results envFalseW (.num 3) 2 0 =
      (.noFuel, List.replicate 2 (cW.getRequest (taskPath (.num 3)))) ∧
    cW.getRequest (taskPath (.num 3) ++ "?include=results") ∉
      (cW.wait_for_results envFalseW (.num 3) 2 0).2 :=
  wait_diverges_when_never_complete envFalseW cW (.num 3) (fun _ => rfl) 2 0

/-- A successful run of the results comprehension yields one value per
entry. -/
theorem parseResults_ok_length (env : Env) :
    ∀ (es vs : List Json), parseResults env es = .ok vs →
      vs.length = es.length := by
  intro es
  induction es with
  | nil =>
      intro vs h
      simp only [parseResults, Except.ok.injEq] at h
      subst h
      rfl
  | cons r rest ih =>
      intro vs h
      simp only [parseResults] at h
      cases hd : decodeEntry env r with
      | error e => rw [hd] at h; exact Except.noConfusion h
      | ok v =>
          rw [hd] at h
          cases hp : parseResults env rest with
          | error e => rw [hp] at h; exact Except.noConfusion h
          | ok vs0 =>
              rw [hp] at h
              simp only [Except.ok.injEq] at h
              subst h
              simp [ih vs0 hp]

/-- A successful run of the results comprehension decodes the `i`-th entry
to the `i`-th returned value. -/
theorem parseResults_ok_get (env : Env) :
    ∀ (es vs : List Json), parseResults env es = .ok vs →
    ∀ i (h1 : i < es.length) (h2 : i < vs.length),
      decodeEntry env (es.get ⟨i, h1⟩) = .ok (vs.get ⟨i, h2⟩) := by
  intro es
  induction es with
  | nil => intro vs h i h1 h2; exact absurd h1 (Nat.not_lt_zero i)
  | cons r rest ih =>
      intro vs h i h1 h2
      simp only [parseResults] at h
      cases hd : decodeEntry env r with
      | error e => rw [hd] at h; exact Except.noConfusion h
      | ok v =>
          rw [hd] at h
          cases hp : parseResults env rest with
          | error e => rw [hp] at h; exact Except.noConfusion h
          | ok vs0 =>
              rw [hp] at h
              simp only [Except.ok.injEq] at h
              subst h
              cases i with
              | zero => exact hd
              | succ j =>
                  exact ih vs0 hp j (Nat.lt_of_succ_lt_succ h1)
                    (Nat.lt_of_succ_lt_succ h2)

/-- C3: when the results response's `results` field is a list of entries,
`wait_for_results` returns one deserialized value per entry, each obtained
by parsing that entry's `result` string independently, in the same order. -/
theorem wait_parses_each_result_in_order (env : Env) (c : Client)
    (task_id : Json) (fuel t t1 : Nat) (reqs : List Request)
    (entries vals : List Json)
    (hp : pollLoop env c (taskPath task_id) fuel t = (.ok t1, reqs))
    (hres : (env.respond t1
        (c.getRequest (taskPath task_id ++ "?include=results"))).getField
        "results" = .ok (.arr entries))
    (hparse : parseResults env entries = .ok vals) :
    (c.wait_for_results env task_id fuel t).1 = .ok vals ∧
    vals.length = entries.length ∧
    ∀ i (h1 : i < entries.length) (h2 : i < vals.length),
      decodeEntry env (entries.get ⟨i, h1⟩) = .ok (vals.get ⟨i, h2⟩) := by
  refine ⟨?_, parseResults_ok_length env entries vals hparse,
    parseResults_ok_get env entries vals hparse⟩
  rw [wait_eq_of_poll_ok env c task_id fuel t t1 reqs hp]
  simp only [fetchResults, Client.get]
  rw [hres]
  simp only [Json.iterate]
  rw [hparse]

/-- Witness for `wait_parses_each_result_in_order`: the single entry of
`envW`'s results response decodes to the single returned value. -/
theorem wait_parses_each_result_in_order_witness :
    (cW.wait_for_results envW (.num 3) 1 0).1 = .ok [.str "7"] :=
  (wait_parses_each_result_in_order envW cW (.num 3) 1 0 1
    [cW.getRequest (taskPath (.num 3))] [.obj [("result", .str "7")]]
    [.str "7"] rfl rfl rfl).1

/-- The method `authenticate` always issues exactly the token request,
whatever the response. -/
theorem authenticate_request (c : Client) (env : Env) (t : Nat) :
    (c.authenticate env t).2.2.2 = c.tokenRequest := by
  simp only [Client.authenticate]
  split
  · rfl
  · split <;> rfl

/-- C6: in `run`, the first request issued is the (unauthenticated) token
request, and when `authenticate` fails no further request is issued; every
`get`/`post` request of the run therefore happens only after a successful
`authenticate`. -/
theorem run_requests_only_after_auth (env : Env)
    (host api_path username password : String) (cid : Json) (fuel : Nat) :
    ∃ rest, (run env host api_path username password cid fuel).2 =
      (initClient host api_path username password cid).tokenRequest ::
        rest ∧
      (initClient host api_path username password cid).tokenRequest.auth =
        none ∧
      (((initClient host api_path username password cid).authenticate
          env 0).1.isOk = false → rest = []) := by
  have hreq := authenticate_request (initClient host api_path username
    password cid) env 0
  rcases hA : (initClient host api_path username password cid).authenticate
      env 0 with ⟨res, c1, t1, rq⟩
  rw [hA] at hreq
  simp only at hreq
  subst hreq
  simp only [run]
  rw [hA]
  cases res with
  | error e => exact ⟨[], rfl, rfl, fun _ => rfl⟩
  | ok u =>
      simp only [Client.create_task, Client.post]
      cases hid : (env.respond t1 (c1.postRequest "/task"
          (taskPayload host api_path cid))).getField "id" with
      | error e =>
          exact ⟨[c1.postRequest "/task" (taskPayload host api_path cid)],
            rfl, rfl, fun hfa => Bool.noConfusion hfa⟩
      | ok idv =>
          exact ⟨c1.postRequest "/task" (taskPayload host api_path cid) ::
            (c1.wait_for_results env idv fuel (t1 + 1)).2,
            rfl, rfl, fun hfa => Bool.noConfusion hfa⟩

/-- The polling loop only moves the request counter forward. -/
theorem pollLoop_ok_le (env : Env) (c : Client) (path : String) :
    ∀ fuel t t1 reqs, pollLoop env c path fuel t = (.ok t1, reqs) →
      t + 1 ≤ t1 := by
  intro fuel
  induction fuel with
  | zero =>
      intro t t1 reqs h
      simp only [pollLoop, Prod.mk.injEq] at h
      exact absurd h.1 (by simp)
  | succ f ih =>
      intro t t1 reqs h
      simp only [pollLoop, Client.get] at h
      cases hg : (env.respond t (c.getRequest path)).getField "complete" with
      | error e =>
          rw [hg] at h
          simp only [Prod.mk.injEq] at h
          exact absurd h.1 (by simp)
      | ok v =>
          rw [hg] at h
          by_cases htv : v.truthy
          · simp only [htv, if_true, Prod.mk.injEq] at h
            obtain ⟨h1, -⟩ := h
            cases h1
            exact Nat.le_refl _
          · simp only [htv, Bool.false_eq_true, if_false] at h
            cases hrec : pollLoop env c path f (t + 1) with
            | mk out reqs0 =>
                rw [hrec] at h
                simp only [Prod.mk.injEq] at h
                obtain ⟨h1, -⟩ := h
                subst h1
                exact Nat.le_of_succ_le (ih (t + 1) t1 reqs0 hrec)

/-- The request built by `getRequest` depends only on the host, API path
and access token. -/
theorem getRequest_congr (c1 c2 : Client) (hh : c1.host = c2.host)
    (ha : c1.api_path = c2.api_path)
    (ht : c1.access_token = c2.access_token) (u : String) :
    c1.getRequest u = c2.getRequest u := by
  simp [Client.getRequest, Client.baseURL, hh, ha, ht]

/-- The request built by `postRequest` depends only on the host, API path
and access token. -/
theorem postRequest_congr (c1 c2 : Client) (hh : c1.host = c2.host)
    (ha : c1.api_path = c2.api_path)
    (ht : c1.access_token = c2.access_token) (u : String) (task : Json) :
    c1.postRequest u task = c2.postRequest u task := by
  simp [Client.postRequest, Client.baseURL, hh, ha, ht]

/-- The function `loadsArg` depends on the environment only through
`loads`. -/
theorem loadsArg_congr (env1 env2 : Env) (hl : env1.loads = env2.loads)
    (v : Json) : loadsArg env1 v = loadsArg env2 v := by
  cases v <;> simp [loadsArg, hl]

/-- The function `decodeEntry` depends on the environment only through
`loads`. -/
theorem decodeEntry_congr (env1 env2 : Env) (hl : env1.loads = env2.loads)
    (r : Json) : decodeEntry env1 r = decodeEntry env2 r := by
  simp only [decodeEntry]
  cases r.getField "result" with
  | error e => rfl
  | ok rv => exact loadsArg_congr env1 env2 hl rv

/-- The function `parseResults` depends on the environment only through
`loads`. -/
theorem parseResults_congr (env1 env2 : Env) (hl : env1.loads = env2.loads) :
    ∀ es, parseResults env1 es = parseResults env2 es := by
  intro es
  induction es with
  | nil => rfl
  | cons r rest ih =>
      simp only [parseResults]
      rw [decodeEntry_congr env1 env2 hl r, ih]

/-- The polling loop behaves identically in two environments that agree on
all requests from the loop's start time on, for two clients agreeing on
host, API path and access token. -/
theorem pollLoop_congr (env1 env2 : Env) (c1 c2 : Client) (path : String)
    (hh : c1.host = c2.host) (ha : c1.api_path = c2.api_path)
    (ht : c1.access_token = c2.access_token)
    (henv : ∀ s req, 1 ≤ s → env1.respond s req = env2.respond s req) :
    ∀ fuel t, 1 ≤ t →
      pollLoop env1 c1 path fuel t = pollLoop env2 c2 path fuel t := by
  intro fuel
  induction fuel with
  | zero => intro t ht0; rfl
  | succ f ih =>
      intro t ht0
      simp only [pollLoop, Client.get]
      rw [getRequest_congr c1 c2 hh ha ht path, henv t _ ht0]
      cases hg : (env2.respond t (c2.getRequest path)).getField
          "complete" with
      | error e => rfl
      | ok v =>
          by_cases htv : v.truthy
          · simp [htv]
          · simp only [htv, if_false]
            rw [ih (t + 1) (Nat.le_succ_of_le ht0)]

/-- The function `fetchResults` behaves identically in two environments
agreeing on
`loads` and on the results request, for two clients agreeing on host, API
path and access token. -/
theorem fetchResults_congr (env1 env2 : Env) (c1 c2 : Client)
    (path : String) (t1 : Nat) (hh : c1.host = c2.host)
    (ha : c1.api_path = c2.api_path)
    (ht : c1.access_token = c2.access_token)
    (henv : ∀ s req, 1 ≤ s → env1.respond s req = env2.respond s req)
    (hl : env1.loads = env2.loads) (ht1 : 1 ≤ t1) :
    fetchResults env1 c1 path t1 = fetchResults env2 c2 path t1 := by
  simp only [fetchResults, Client.get]
  rw [getRequest_congr c1 c2 hh ha ht (path ++ "?include=results"),
    henv t1 _ ht1, funext (parseResults_congr env1 env2 hl)]

/-- The method `wait_for_results` behaves identically in two environments
agreeing on `loads` and on all requests from the start time on, for two clients
agreeing on host, API path and access token. -/
theorem wait_for_results_congr (env1 env2 : Env) (c1 c2 : Client)
    (task_id : Json) (hh : c1.host = c2.host)
    (ha : c1.api_path = c2.api_path)
    (ht : c1.access_token = c2.access_token)
    (henv : ∀ s req, 1 ≤ s → env1.respond s req = env2.respond s req)
    (hl : env1.loads = env2.loads) :
    ∀ fuel t, 1 ≤ t →
      c1.wait_for_results env1 task_id fuel t =
      c2.wait_for_results env2 task_id fuel t := by
  intro fuel t ht0
  have hpc := pollLoop_congr env1 env2 c1 c2 (taskPath task_id) hh ha ht
    henv fuel t ht0
  cases hp : pollLoop env2 c2 (taskPath task_id) fuel t with
  | mk out reqs =>
      rw [hp] at hpc
      cases out with
      | noFuel =>
          rw [wait_eq_of_poll_noFuel env1 c1 task_id fuel t reqs hpc,
            wait_eq_of_poll_noFuel env2 c2 task_id fuel t reqs hp]
      | exn e =>
          simp only [Client.wait_for_results]
          rw [hpc, hp]
      | ok t1 =>
          have ht1 : t + 1 ≤ t1 :=
            pollLoop_ok_le env2 c2 (taskPath task_id) fuel t t1 reqs hp
          rw [wait_eq_of_poll_ok env1 c1 task_id fuel t t1 reqs hpc,
            wait_eq_of_poll_ok env2 c2 task_id fuel t t1 reqs hp,
            fetchResults_congr env1 env2 c1 c2 (taskPath task_id) t1
              hh ha ht henv hl (by omega),
            getRequest_congr c1 c2 hh ha ht
              (taskPath task_id ++ "?include=results")]

/-- Unfolding of `authenticate` on a response carrying both tokens. -/
theorem authenticate_eq_ok (c : Client) (env : Env) (t : Nat) (av rv : Json)
    (ha : (env.respond t c.tokenRequest).getField "access_token" = .ok av)
    (hr : (env.respond t c.tokenRequest).getField "refresh_token" =
      .ok rv) :
    c.authenticate env t = (.ok (),
      { c with access_token := av, refresh_token := rv }, t + 1,
      c.tokenRequest) := by
  simp only [Client.authenticate]
  rw [ha, hr]

/-- Unfolding of `authenticate` on a response with no `access_token`. -/
theorem authenticate_eq_error (c : Client) (env : Env) (t : Nat)
    (e : String)
    (ha : (env.respond t c.tokenRequest).getField "access_token" =
      .error e) :
    c.authenticate env t = (.error e, c, t + 1, c.tokenRequest) := by
  simp only [Client.authenticate]
  rw [ha]

/-- Unfolding of `run` when `authenticate` succeeds. -/
theorem run_eq_of_auth_ok (env : Env)
    (host api_path username password : String) (cid : Json) (fuel : Nat)
    (c1 : Client) (rq : Request)
    (hA : (initClient host api_path username password cid).authenticate
      env 0 = (.ok (), c1, 1, rq)) :
    run env host api_path username password cid fuel =
      (match (env.respond 1 (c1.postRequest "/task"
          (taskPayload host api_path cid))).getField "id" with
       | .error e => (.exn e,
           [rq, c1.postRequest "/task" (taskPayload host api_path cid)])
       | .ok idv => ((c1.wait_for_results env idv fuel 2).1,
           rq :: c1.postRequest "/task" (taskPayload host api_path cid) ::
             (c1.wait_for_results env idv fuel 2).2)) := by
  simp only [run, Client.create_task, Client.post]
  rw [hA]

/-- Unfolding of `run` when `authenticate` raises. -/
theorem run_eq_of_auth_error (env : Env)
    (host api_path username password : String) (cid : Json) (fuel : Nat)
    (e : String) (c1 : Client) (t1 : Nat) (rq : Request)
    (hA : (initClient host api_path username password cid).authenticate
      env 0 = (.error e, c1, t1, rq)) :
    run env host api_path username password cid fuel = (.exn e, [rq]) := by
  simp only [run]
  rw [hA]

/-- Unfolding of `run` when `authenticate` succeeds and the submission
response carries an `id`. -/
theorem run_eq_of_id_ok (env : Env)
    (host api_path username password : String) (cid : Json) (fuel : Nat)
    (c1 : Client) (rq : Request) (idv : Json)
    (hA : (initClient host api_path username password cid).authenticate
      env 0 = (.ok (), c1, 1, rq))
    (hid : (env.respond 1 (c1.postRequest "/task"
      (taskPayload host api_path cid))).getField "id" = .ok idv) :
    run env host api_path username password cid fuel =
      ((c1.wait_for_results env idv fuel 2).1,
       rq :: c1.postRequest "/task" (taskPayload host api_path cid) ::
         (c1.wait_for_results env idv fuel 2).2) := by
  rw [run_eq_of_auth_ok env host api_path username password cid fuel c1 rq
    hA, hid]

/-- Unfolding of `run` when `authenticate` succeeds but the submission
response has no `id`. -/
theorem run_eq_of_id_error (env : Env)
    (host api_path username password : String) (cid : Json) (fuel : Nat)
    (c1 : Client) (rq : Request) (e : String)
    (hA : (initClient host api_path username password cid).authenticate
      env 0 = (.ok (), c1, 1, rq))
    (hid : (env.respond 1 (c1.postRequest "/task"
      (taskPayload host api_path cid))).getField "id" = .error e) :
    run env host api_path username password cid fuel =
      (.exn e,
       [rq, c1.postRequest "/task" (taskPayload host api_path cid)]) := by
  rw [run_eq_of_auth_ok env host api_path username password cid fuel c1 rq
    hA, hid]

/-- C8: the refresh token is stored but never used.  Two runs whose
environments share `json.loads` and agree on every response from the task
submission onwards, and whose token responses agree on the access token
while each carries some (possibly different) refresh token, issue exactly
the same HTTP requests. -/
theorem refresh_token_never_used (env1 env2 : Env)
    (host api_path username password : String) (cid : Json) (fuel : Nat)
    (v1 v2 : Json)
    (henv : ∀ s req, 1 ≤ s → env1.respond s req = env2.respond s req)
    (hl : env1.loads = env2.loads)
    (hacc : (env1.respond 0 (initClient host api_path username password
        cid).tokenRequest).getField "access_token" =
      (env2.respond 0 (initClient host api_path username password
        cid).tokenRequest).getField "access_token")
    (hrf1 : (env1.respond 0 (initClient host api_path username password
        cid).tokenRequest).getField "refresh_token" = .ok v1)
    (hrf2 : (env2.respond 0 (initClient host api_path username password
        cid).tokenRequest).getField "refresh_token" = .ok v2) :
    (run env1 host api_path username password cid fuel).2 =
    (run env2 host api_path username password cid fuel).2 := by
  cases hga : (env1.respond 0 (initClient host api_path username password
      cid).tokenRequest).getField "access_token" with
  | error e =>
      rw [hga] at hacc
      rw [run_eq_of_auth_error env1 host api_path username password cid
          fuel e _ 1 _ (authenticate_eq_error _ env1 0 e hga),
        run_eq_of_auth_error env2 host api_path username password cid
          fuel e _ 1 _ (authenticate_eq_error _ env2 0 e hacc.symm)]
  | ok av =>
      rw [hga] at hacc
      have hA1 := authenticate_eq_ok (initClient host api_path username
        password cid) env1 0 av v1 hga hrf1
      have hA2 := authenticate_eq_ok (initClient host api_path username
        password cid) env2 0 av v2 hacc.symm hrf2
      have hpost : ({ initClient host api_path username password cid with
            access_token := av, refresh_token := v1 } : Client).postRequest
            "/task" (taskPayload host api_path cid) =
          ({ initClient host api_path username password cid with
            access_token := av, refresh_token := v2 } : Client).postRequest
            "/task" (taskPayload host api_path cid) :=
        postRequest_congr _ _ rfl rfl rfl _ _
      have hresp : env1.respond 1 (({ initClient host api_path username
            password cid with access_token := av, refresh_token := v1 } :
            Client).postRequest "/task" (taskPayload host api_path cid)) =
          env2.respond 1 (({ initClient host api_path username password
            cid with access_token := av, refresh_token := v2 } :
            Client).postRequest "/task" (taskPayload host api_path cid)) :=
        by rw [hpost]; exact henv 1 _ (Nat.le_refl 1)
      cases hid : (env2.respond 1 (({ initClient host api_path username
          password cid with access_token := av, refresh_token := v2 } :
          Client).postRequest "/task"
          (taskPayload host api_path cid))).getField "id" with
      | error e =>
          rw [run_eq_of_id_error env1 host api_path username password cid
              fuel _ _ e hA1 (by rw [hresp, hid]),
            run_eq_of_id_error env2 host api_path username password cid
              fuel _ _ e hA2 hid, hpost]
      | ok idv =>
          rw [run_eq_of_id_ok env1 host api_path username password cid
              fuel _ _ idv hA1 (by rw [hresp, hid]),
            run_eq_of_id_ok env2 host api_path username password cid
              fuel _ _ idv hA2 hid, hpost,
            wait_for_results_congr env1 env2
              { initClient host api_path username password cid with
                access_token := av, refresh_token := v1 }
              { initClient host api_path username password cid with
                access_token := av, refresh_token := v2 }
              idv rfl rfl rfl henv hl fuel 2 (by omega)]


/-- Witness for `refresh_token_never_used`: two concrete runs whose token
responses differ only in the refresh token issue the same requests. -/
theorem refresh_token_never_used_witness :
    (run envA "http://x" "/api" "u" "p" (.num 1) 1).2 =
    (run envB "http://x" "/api" "u" "p" (.num 1) 1).2 :=
  refresh_token_never_used envA envB "http://x" "/api" "u" "p" (.num 1) 1
    (.str "R1") (.str "R2")
    (fun s _ hs => by
      cases s with
      | zero => omega
      | succ n => rfl)
    rfl rfl rfl rfl
